import Mathlib

/-
Verification of the scan-handling core of aquasecurity/webhook-server
(src/scanservice/handling.go) against its natural-language specification.

The Go code is shallowly embedded: external collaborators (the pattern
engine behind compliesPolicies, the OPA evaluator isRegoCorrect, the
aggregation store dbservice.AggregateScans, the payload parser
parseImageInfo, the prior-scan lookup dbservice.HandleCurrentInfo, the
renderer layout.GenTicketDescription and the batch merger
buildAggregatedContent) are passed in as function parameters, so every
theorem quantifies over their behaviour.  Notification content, a Go
map from string to string, is embedded as an association list with
unique keys.  Machine integers that the code only compares with zero
are embedded as Int (settings) and Nat (finding counts).
-/

namespace scanservice

/-- Notification content: the Go type map of string to string,
embedded as an association list with unique keys. -/
abbrev Content := List (String × String)

/-- Reads a key from a content map, mirroring Go map indexing. -/
def getKey (c : Content) (k : String) : Option String :=
  (c.find? (fun kv => kv.1 == k)).map (fun kv => kv.2)

/-- Writes a key into a content map, mirroring Go map assignment:
an existing key is overwritten, a new key is appended. -/
def setKey (c : Content) (k v : String) : Content :=
  if c.any (fun kv => kv.1 == k) then
    c.map (fun kv => if kv.1 == k then (k, v) else kv)
  else c ++ [(k, v)]

/-- One vulnerability entry of a resource (data package): only the
FixVersion field is read by this core. -/
structure Vulnerability where
  FixVersion : String
deriving DecidableEq

/-- One resource of a scan result (data package): only the
vulnerability list is read by this core. -/
structure Resource where
  Vulnerabilities : List Vulnerability
deriving DecidableEq

/-- The fields of data.ScanImageInfo read by handling.go. -/
structure ScanImageInfo where
  Registry : String
  Image : String
  Negligible : Nat
  Low : Nat
  Medium : Nat
  High : Nat
  Critical : Nat
  Resources : List Resource
  Disallowed : Bool
  ApplicationScopeOwners : List String
deriving DecidableEq

/-- The ScanService state (handling.go lines 15-19). -/
structure ScanService where
  scanInfo : ScanImageInfo
  prevScan : Option ScanImageInfo
  isNew : Bool
deriving DecidableEq

/-- The settings fields read by handling.go (settings package). -/
structure Settings where
  PluginName : String
  PolicyShowAll : Bool
  PolicyMinVulnerability : String
  IgnoreRegistry : List String
  IgnoreImageName : List String
  PolicyImageName : List String
  PolicyRegistry : List String
  PolicyNonCompliant : Bool
  PolicyOnlyFixAvailable : Bool
  PolicyOPA : List String
  AggregateIssuesNumber : Int
  AggregateTimeoutSeconds : Int
  IsScheduleRun : Bool
  AquaServer : String
deriving DecidableEq

/-- Modelled from the spec: settings.GetDefaultSettings is defined
outside src.  The spec lists the recognized options without naming
defaults, so the defaults are taken as the Go zero values of all
recognized options. -/
def GetDefaultSettings : Settings :=
  { PluginName := ""
    PolicyShowAll := false
    PolicyMinVulnerability := ""
    IgnoreRegistry := []
    IgnoreImageName := []
    PolicyImageName := []
    PolicyRegistry := []
    PolicyNonCompliant := false
    PolicyOnlyFixAvailable := false
    PolicyOPA := []
    AggregateIssuesNumber := 0
    AggregateTimeoutSeconds := 0
    IsScheduleRun := false
    AquaServer := "" }

/-- A subscriber plugin as seen by handling.go: GetSettings may return
nil (hence Option); the layout provider is folded into the two
rendering capabilities so that render models
layout.GenTicketDescription with this plugin's provider and merge
models buildAggregatedContent with this plugin's provider (both
external rendering concerns per the spec). -/
structure Plugin where
  settings : Option Settings
  render : ScanImageInfo → Option ScanImageInfo → String → String
  merge : List Content → Content

/-- Modelled from the spec: the SeverityIndexes table is defined
outside src.  Ranks follow the fixed order Negligible < Low < Medium <
High < Critical as 0..4; a key missing from a Go map yields the zero
value 0. -/
def SeverityIndexes (levelLower : String) : Nat :=
  if levelLower = "negligible" then 0
  else if levelLower = "low" then 1
  else if levelLower = "medium" then 2
  else if levelLower = "high" then 3
  else if levelLower = "critical" then 4
  else 0

/-- The severity-count array built by checkVulnerabilitiesLevel
(handling.go line 171). -/
def severityCounts (info : ScanImageInfo) : List Nat :=
  [info.Negligible, info.Low, info.Medium, info.High, info.Critical]

/-- checkVulnerabilitiesLevel (handling.go lines 170-178): true when
some count at or above the rank of the lowercased minimum level is
positive. -/
def checkVulnerabilitiesLevel (info : ScanImageInfo) (minLevel : String) : Bool :=
  ((severityCounts info).drop (SeverityIndexes minLevel.toLower)).any
    (fun v => decide (0 < v))

/-- checkFixVersions (handling.go lines 159-168): true when some
vulnerability of some resource carries a non-empty fix version. -/
def checkFixVersions (info : ScanImageInfo) : Bool :=
  info.Resources.any (fun r => r.Vulnerabilities.any (fun v => !v.FixVersion.isEmpty))

/-- Modelled from the spec: compliesPolicies is defined outside src.
Per the spec it is a set-membership test: the target satisfies the
list when it matches any one pattern, with the matching semantics
owned by the external pattern engine, here the parameter f. -/
def compliesPolicies (f : String → String → Bool) (policies : List String) (target : String) : Bool :=
  policies.any (fun p => f p target)

/-- The deciding rule of the policy-gate chain, for diagnostics. -/
inductive Gate where
  | fresh
  | minVuln
  | ignoreRegistry
  | ignoreImage
  | allowImage
  | allowRegistry
  | nonCompliant
  | fixAvailable
  | opaError
  | opaReject
deriving DecidableEq

/-- The ordered eligibility chain of ResultHandling (handling.go lines
40-91), returning the first failing gate, or none when the subscriber
passes.  The parameter rego models isRegoCorrect as the pair (verdict,
errored). -/
def firstFailingGate (rego : List String → String → Bool × Bool)
    (f : String → String → Bool) (svc : ScanService) (input : String)
    (s : Settings) : Option Gate :=
  if !svc.isNew && !s.PolicyShowAll then some Gate.fresh
  else if !s.PolicyMinVulnerability.isEmpty &&
      !checkVulnerabilitiesLevel svc.scanInfo s.PolicyMinVulnerability then some Gate.minVuln
  else if !s.IgnoreRegistry.isEmpty &&
      compliesPolicies f s.IgnoreRegistry svc.scanInfo.Registry then some Gate.ignoreRegistry
  else if !s.IgnoreImageName.isEmpty &&
      compliesPolicies f s.IgnoreImageName svc.scanInfo.Image then some Gate.ignoreImage
  else if !s.PolicyImageName.isEmpty &&
      !compliesPolicies f s.PolicyImageName svc.scanInfo.Image then some Gate.allowImage
  else if !s.PolicyRegistry.isEmpty &&
      !compliesPolicies f s.PolicyRegistry svc.scanInfo.Registry then some Gate.allowRegistry
  else if s.PolicyNonCompliant && !svc.scanInfo.Disallowed then some Gate.nonCompliant
  else if s.PolicyOnlyFixAvailable && !checkFixVersions svc.scanInfo then some Gate.fixAvailable
  else if !s.PolicyOPA.isEmpty then
    let r := rego s.PolicyOPA input
    if r.2 then some Gate.opaError
    else if !r.1 then some Gate.opaReject
    else none
  else none

/-- Modelled from the spec: buildMapContent is defined outside src.
The spec names the content fields title, description and url for a
single scan. -/
def buildMapContent (title description url : String) : Content :=
  [("title", title), ("description", description), ("url", url)]

/-- getContent (handling.go lines 180-186): the canonical url is the
registry, a slash and the image with every slash replaced by the
escape %2F; the renderer receives the scan, the previous scan and the
server-prefixed url. -/
def getContent (svc : ScanService)
    (render : ScanImageInfo → Option ScanImageInfo → String → String)
    (server : String) : Content :=
  let url := svc.scanInfo.Registry ++ "/" ++ svc.scanInfo.Image.replace "/" "%2F"
  buildMapContent (svc.scanInfo.Image ++ " vulnerability scan report")
    (render svc.scanInfo svc.prevScan (server ++ url)) url

/-- The owners string computed once per scan (handling.go lines
27-30): the semicolon-join of ApplicationScopeOwners when the list is
non-empty, otherwise the empty string. -/
def ownersString (info : ScanImageInfo) : String :=
  if 0 < info.ApplicationScopeOwners.length then
    String.intercalate ";" info.ApplicationScopeOwners
  else ""

/-- The content prepared for one passing subscriber (handling.go lines
97-101): the built content with the raw input under src and, when the
owners string is non-empty, the owners field. -/
def preparedContent (svc : ScanService)
    (render : ScanImageInfo → Option ScanImageInfo → String → String)
    (server input owners : String) : Content :=
  let c := setKey (getContent svc render server) "src" input
  if owners ≠ "" then setKey c "owners" owners else c

/-- The external aggregation store dbservice.AggregateScans: given the
plugin name, the content to append (empty models the Go nil), the
count threshold and the ignore-length directive, it answers with a
batch and an error flag. -/
abbrev StoreFn := String → Content → Int → Bool → List Content × Bool

/-- The arguments of one call to the aggregation store, recorded for
the theorems. -/
structure StoreCall where
  pluginName : String
  content : Content
  counts : Int
  ignoreLength : Bool
deriving DecidableEq

/-- AggregateScanAndGetQueue (handling.go lines 146-157): on a store
error the batch is returned as it came back; otherwise, when content
was appended and the batch is empty the item was queued and nil is
returned; otherwise the batch is returned.  The second component
records the store call that was made. -/
def AggregateScanAndGetQueue (store : StoreFn) (pluginName : String)
    (currentContent : Content) (counts : Int) (ignoreLength : Bool) :
    List Content × StoreCall :=
  let r := store pluginName currentContent counts ignoreLength
  let res :=
    if r.2 then r.1
    else if !currentContent.isEmpty && r.1.isEmpty then []
    else r.1
  (res, { pluginName := pluginName, content := currentContent,
          counts := counts, ignoreLength := ignoreLength })

/-- What one iteration of the subscriber loop of ResultHandling did:
the store calls it made in order, the contents it handed to send, in
order, whether it launched the scheduler task, the settings object
after the iteration (none when the plugin was nil and nothing was
read), and the gate that skipped the subscriber, if any. -/
structure SubscriberOutcome where
  storeCalls : List StoreCall
  dispatched : List Content
  scheduleStarted : Bool
  settingsAfter : Option Settings
  skipped : Option Gate
deriving DecidableEq

/-- The server prefix of a plugin (handling.go lines 93-96): the
AquaServer setting when settings are non-nil, otherwise empty. -/
def serverOf (plugin : Plugin) : String :=
  match plugin.settings with
  | some ps => ps.AquaServer
  | none => ""

/-- One iteration of the subscriber loop of ResultHandling
(handling.go lines 32-139) for a non-nil plugin: nil settings fall
back to the defaults; the gate chain may skip the subscriber; the
count-based step (lines 103-112) hands the content to the store with
the configured threshold and replaces it by the merged batch or by
nil; the time-based step (lines 114-134) queues the content with
threshold 0 and the ignore-length directive when the count-based step
did not run, and launches the scheduler when the one-shot flag is
unset; finally a non-empty content is dispatched (lines 136-138). -/
def handleSubscriber (rego : List String → String → Bool × Bool)
    (f : String → String → Bool) (store : StoreFn) (svc : ScanService)
    (input owners name : String) (plugin : Plugin) : SubscriberOutcome :=
  let currentSettings := plugin.settings.getD GetDefaultSettings
  match firstFailingGate rego f svc input currentSettings with
  | some g =>
    { storeCalls := [], dispatched := [], scheduleStarted := false,
      settingsAfter := some currentSettings, skipped := some g }
  | none =>
    let content := preparedContent svc plugin.render (serverOf plugin) input owners
    let step1 : Content × Bool × List StoreCall :=
      if 0 < currentSettings.AggregateIssuesNumber then
        let r := AggregateScanAndGetQueue store name content
          currentSettings.AggregateIssuesNumber false
        (if !r.1.isEmpty then plugin.merge r.1 else [], true, [r.2])
      else (content, false, [])
    let step2 : Content × List StoreCall × Bool × Settings :=
      if 0 < currentSettings.AggregateTimeoutSeconds then
        let queued : Content × List StoreCall :=
          if !step1.2.1 then
            let r := AggregateScanAndGetQueue store name step1.1 0 true
            ([], [r.2])
          else (step1.1, [])
        if !currentSettings.IsScheduleRun then
          (queued.1, queued.2, true, { currentSettings with IsScheduleRun := true })
        else (queued.1, queued.2, false, currentSettings)
      else (step1.1, [], false, currentSettings)
    { storeCalls := step1.2.2 ++ step2.2.1,
      dispatched := if !step2.1.isEmpty then [step2.1] else [],
      scheduleStarted := step2.2.2.1,
      settingsAfter := some step2.2.2.2,
      skipped := none }

/-- One iteration of the subscriber loop including the nil-plugin
check (handling.go lines 33-35): a nil plugin is skipped with no
effect. -/
def handleEntry (rego : List String → String → Bool × Bool)
    (f : String → String → Bool) (store : StoreFn) (svc : ScanService)
    (input owners : String) (entry : String × Option Plugin) : SubscriberOutcome :=
  match entry.2 with
  | none =>
    { storeCalls := [], dispatched := [], scheduleStarted := false,
      settingsAfter := none, skipped := none }
  | some plugin => handleSubscriber rego f store svc input owners entry.1 plugin

/-- The subscriber loop of ResultHandling over the plugin map, taken
in one iteration order. -/
def handleEntries (rego : List String → String → Bool × Bool)
    (f : String → String → Bool) (store : StoreFn) (svc : ScanService)
    (input owners : String) (entries : List (String × Option Plugin)) :
    List SubscriberOutcome :=
  entries.map (handleEntry rego f store svc input owners)

/-- ScanService.init (handling.go lines 188-207): parse the input,
look up the prior payload and the freshness flag, and parse the
previous scan only when the scan is new and a prior payload exists.
The parser parseImageInfo and the lookup dbservice.HandleCurrentInfo
are external collaborators passed as parameters. -/
def initService (parse : String → Except String ScanImageInfo)
    (handleCurrentInfo : ScanImageInfo → Except String (String × Bool))
    (input : String) : Except String ScanService :=
  match parse input with
  | Except.error e => Except.error e
  | Except.ok info =>
    match handleCurrentInfo info with
    | Except.error e => Except.error e
    | Except.ok (prevScanSource, isNew) =>
      if !isNew then Except.ok { scanInfo := info, prevScan := none, isNew := isNew }
      else if 0 < prevScanSource.length then
        match parse prevScanSource with
        | Except.error e => Except.error e
        | Except.ok prev =>
          Except.ok { scanInfo := info, prevScan := some prev, isNew := isNew }
      else Except.ok { scanInfo := info, prevScan := none, isNew := isNew }

/-- ResultHandling (handling.go lines 21-140): a failing init aborts
the whole scan; otherwise every entry of the plugin map is processed
with the owners string computed once. -/
def ResultHandling (rego : List String → String → Bool × Bool)
    (f : String → String → Bool) (store : StoreFn)
    (parse : String → Except String ScanImageInfo)
    (handleCurrentInfo : ScanImageInfo → Except String (String × Bool))
    (input : String) (entries : List (String × Option Plugin)) :
    Option (List SubscriberOutcome) :=
  match initService parse handleCurrentInfo input with
  | Except.error _ => none
  | Except.ok svc =>
    some (handleEntries rego f store svc input (ownersString svc.scanInfo) entries)

/-- One iteration of the scheduler loop body (handling.go lines
124-130): after the sleep, the queue is drained by calling the store
with nil content, threshold 0 and ignoreLength false; when the drained
queue is non-empty the merged content is dispatched, otherwise
nothing is.  Returns the store call made and the dispatched content,
if any. -/
def schedulerFlushStep (store : StoreFn) (name : String)
    (merge : List Content → Content) : StoreCall × Option Content :=
  let r := AggregateScanAndGetQueue store name [] 0 false
  (r.2, if !r.1.isEmpty then some (merge r.1) else none)

/-- Shared state of two concurrent ResultHandling calls racing on one
subscriber's scheduler-start guard (handling.go lines 119-133):
the shared IsScheduleRun flag, the number of scheduler tasks started
so far, and for each of the two calls a program counter (0 = before
the read of the flag, 1 = after the read, 2 = done) together with the
value it read. -/
structure GuardState where
  isScheduleRun : Bool
  startedTasks : Nat
  pc1 : Nat
  saw1 : Bool
  pc2 : Nat
  saw2 : Bool
deriving DecidableEq

/-- Both calls begin before the read, with the flag unset and no task
started. -/
def guardInit : GuardState :=
  { isScheduleRun := false, startedTasks := 0,
    pc1 := 0, saw1 := false, pc2 := 0, saw2 := false }

/-- One step of call t under the guard as written in handling.go
lines 119-133: step 0 reads IsScheduleRun; step 1, when the value
read was false, starts the scheduler task and then sets the flag.
This is the read-then-write shape of the source. -/
def stepReadThenWrite (s : GuardState) (t : Bool) : GuardState :=
  if t = false then
    if s.pc1 = 0 then { s with saw1 := s.isScheduleRun, pc1 := 1 }
    else if s.pc1 = 1 then
      if s.saw1 = false then
        { s with startedTasks := s.startedTasks + 1, isScheduleRun := true, pc1 := 2 }
      else { s with pc1 := 2 }
    else s
  else
    if s.pc2 = 0 then { s with saw2 := s.isScheduleRun, pc2 := 1 }
    else if s.pc2 = 1 then
      if s.saw2 = false then
        { s with startedTasks := s.startedTasks + 1, isScheduleRun := true, pc2 := 2 }
      else { s with pc2 := 2 }
    else s

/-- Runs the read-then-write guard under an interleaving: each list
element names the call that takes the next step. -/
def runReadThenWrite (sched : List Bool) : GuardState :=
  sched.foldl stepReadThenWrite guardInit

/-- One step of call t when the guard is instead an atomic
check-and-set: the read of the flag, the start of the task and the
write of the flag happen in one indivisible step. -/
def stepCheckAndSet (s : GuardState) (t : Bool) : GuardState :=
  if t = false then
    if s.pc1 = 0 then
      if s.isScheduleRun = false then
        { s with startedTasks := s.startedTasks + 1, isScheduleRun := true, pc1 := 2 }
      else { s with pc1 := 2 }
    else s
  else
    if s.pc2 = 0 then
      if s.isScheduleRun = false then
        { s with startedTasks := s.startedTasks + 1, isScheduleRun := true, pc2 := 2 }
      else { s with pc2 := 2 }
    else s

/-- Runs the atomic check-and-set guard under an interleaving. -/
def runCheckAndSet (sched : List Bool) : GuardState :=
  sched.foldl stepCheckAndSet guardInit

/-- The invariant of the atomic guard: a task was started only after
the flag was set, and never more than once. -/
def guardInv (s : GuardState) : Prop :=
  (s.isScheduleRun = false → s.startedTasks = 0) ∧ s.startedTasks ≤ 1

/-- A concrete scan with one high finding, used by the witnesses. -/
def demoInfo : ScanImageInfo :=
  { Registry := "registry.example", Image := "team/app",
    Negligible := 0, Low := 0, Medium := 0, High := 2, Critical := 0,
    Resources := [{ Vulnerabilities := [{ FixVersion := "1.2.3" }] }],
    Disallowed := true, ApplicationScopeOwners := ["alpha", "beta"] }

/-- A concrete scan whose only owning-team identifier is the empty
string, used by the content-builder counterexample. -/
def demoInfoEmptyOwner : ScanImageInfo :=
  { Registry := "registry.example", Image := "team/app",
    Negligible := 0, Low := 0, Medium := 0, High := 2, Critical := 0,
    Resources := [], Disallowed := false, ApplicationScopeOwners := [""] }

/-- A concrete scan with only low-rank findings, used by the
minimum-severity witness. -/
def demoInfoLowOnly : ScanImageInfo :=
  { Registry := "registry.example", Image := "team/app",
    Negligible := 3, Low := 1, Medium := 0, High := 0, Critical := 0,
    Resources := [], Disallowed := false, ApplicationScopeOwners := [] }

/-- A newly observed scan state. -/
def demoSvcNew : ScanService :=
  { scanInfo := demoInfo, prevScan := none, isNew := true }

/-- A repeated scan state. -/
def demoSvcOld : ScanService :=
  { scanInfo := demoInfo, prevScan := none, isNew := false }

/-- A newly observed scan state with only low-rank findings. -/
def demoSvcLowOnly : ScanService :=
  { scanInfo := demoInfoLowOnly, prevScan := none, isNew := true }

/-- A newly observed scan state with an empty-string owner. -/
def demoSvcEmptyOwner : ScanService :=
  { scanInfo := demoInfoEmptyOwner, prevScan := none, isNew := true }

/-- An OPA evaluator that accepts everything without error. -/
def demoRego : List String → String → Bool × Bool := fun _ _ => (true, false)

/-- A pattern engine under which nothing matches. -/
def demoMatch : String → String → Bool := fun _ _ => false

/-- A store that always queues: empty batch, no error. -/
def demoStoreQueue : StoreFn := fun _ _ _ _ => ([], false)

/-- A store that answers with a ready three-item batch, no error. -/
def demoStoreReady : StoreFn := fun _ _ _ _ =>
  ([[("title", "a")], [("title", "b")], [("title", "c")]], false)

/-- A store that fails while also returning a non-empty batch. -/
def demoStoreErr : StoreFn := fun _ _ _ _ => ([[("title", "ghost")]], true)

/-- A concrete batch merger satisfying the merge contract of the
spec: one non-empty output for any non-empty input. -/
def demoMerge : List Content → Content := fun _ => [("title", "aggregated")]

/-- A concrete renderer. -/
def demoRender : ScanImageInfo → Option ScanImageInfo → String → String :=
  fun _ prev url => (if prev.isSome then "diff:" else "full:") ++ url

/-- Settings under which every gate passes for a new scan and no
aggregation is configured. -/
def demoSettingsPlain : Settings :=
  { PluginName := "demo", PolicyShowAll := false, PolicyMinVulnerability := "",
    IgnoreRegistry := [], IgnoreImageName := [], PolicyImageName := [],
    PolicyRegistry := [], PolicyNonCompliant := false,
    PolicyOnlyFixAvailable := false, PolicyOPA := [],
    AggregateIssuesNumber := 0, AggregateTimeoutSeconds := 0,
    IsScheduleRun := false, AquaServer := "https://aqua.example/" }

/-- Plain settings with a count threshold of three. -/
def demoSettingsCount : Settings :=
  { demoSettingsPlain with AggregateIssuesNumber := 3 }

/-- Plain settings with a configured minimum severity. -/
def demoSettingsMin : Settings :=
  { demoSettingsPlain with PolicyMinVulnerability := "Medium" }

/-- Plain settings with a flush interval of five seconds. -/
def demoSettingsTime : Settings :=
  { demoSettingsPlain with AggregateTimeoutSeconds := 5 }

/-- A plugin with the plain settings. -/
def demoPluginPlain : Plugin :=
  { settings := some demoSettingsPlain, render := demoRender, merge := demoMerge }

/-- A plugin with the count-threshold settings. -/
def demoPluginCount : Plugin :=
  { settings := some demoSettingsCount, render := demoRender, merge := demoMerge }

/-- A plugin with the minimum-severity settings. -/
def demoPluginMin : Plugin :=
  { settings := some demoSettingsMin, render := demoRender, merge := demoMerge }

/-- A plugin with the flush-interval settings. -/
def demoPluginTime : Plugin :=
  { settings := some demoSettingsTime, render := demoRender, merge := demoMerge }

/-- A plugin whose settings lookup answers nil. -/
def demoPluginNilSettings : Plugin :=
  { settings := none, render := demoRender, merge := demoMerge }

/-- A concrete parser for the init witnesses: the input "raw" parses
to the new scan, the input "prevraw" to the previous one. -/
def demoParse : String → Except String ScanImageInfo := fun s =>
  if s = "raw" then Except.ok demoInfo
  else if s = "prevraw" then Except.ok demoInfoLowOnly
  else Except.error "invalid json"

/-- A prior-scan lookup that reports a repeat with a stored previous
payload. -/
def demoHandleCurrentOld : ScanImageInfo → Except String (String × Bool) :=
  fun _ => Except.ok ("prevraw", false)

/-- A prior-scan lookup that reports a new scan with a stored
previous payload. -/
def demoHandleCurrentNew : ScanImageInfo → Except String (String × Bool) :=
  fun _ => Except.ok ("prevraw", true)

/-- C4: for every scan whose freshness flag isNew is false and every
subscriber whose PolicyShowAll option is false, that subscriber is
skipped at the freshness gate with no store append and no dispatch,
and, since the outcome is the same for every pattern engine, OPA
evaluator and store, no later gate in the chain is evaluated for that
subscriber. -/
theorem freshness_gate_skips (rego : List String → String → Bool × Bool)
    (f : String → String → Bool) (store : StoreFn) (svc : ScanService)
    (input owners name : String) (plugin : Plugin)
    (hnew : svc.isNew = false)
    (hshow : (plugin.settings.getD GetDefaultSettings).PolicyShowAll = false) :
    handleSubscriber rego f store svc input owners name plugin =
      { storeCalls := [], dispatched := [], scheduleStarted := false,
        settingsAfter := some (plugin.settings.getD GetDefaultSettings),
        skipped := some Gate.fresh } := by
  unfold handleSubscriber firstFailingGate
  simp [hnew, hshow]

/-- Witness: the freshness gate theorem applied to a concrete repeat
scan and a subscriber that did not opt into repeats. -/
theorem freshness_gate_skips_witness :
    demoSvcOld.isNew = false ∧
    (demoPluginPlain.settings.getD GetDefaultSettings).PolicyShowAll = false ∧
    handleSubscriber demoRego demoMatch demoStoreReady demoSvcOld "in" "" "demo" demoPluginPlain =
      { storeCalls := [], dispatched := [], scheduleStarted := false,
        settingsAfter := some (demoPluginPlain.settings.getD GetDefaultSettings),
        skipped := some Gate.fresh } :=
  ⟨rfl, rfl, freshness_gate_skips demoRego demoMatch demoStoreReady demoSvcOld
    "in" "" "demo" demoPluginPlain rfl rfl⟩

/-- The skipped field of a subscriber outcome is exactly the first
failing gate of the chain. -/
lemma handleSubscriber_skipped (rego : List String → String → Bool × Bool)
    (f : String → String → Bool) (store : StoreFn) (svc : ScanService)
    (input owners name : String) (plugin : Plugin) :
    (handleSubscriber rego f store svc input owners name plugin).skipped =
      firstFailingGate rego f svc input (plugin.settings.getD GetDefaultSettings) := by
  unfold handleSubscriber
  cases hg : firstFailingGate rego f svc input (plugin.settings.getD GetDefaultSettings) <;>
    simp [hg]

/-- checkVulnerabilitiesLevel is false exactly when every count at or
above the rank of the lowercased level is zero. -/
lemma checkVulnerabilitiesLevel_eq_false_iff (info : ScanImageInfo) (minLevel : String) :
    checkVulnerabilitiesLevel info minLevel = false ↔
      ∀ v ∈ (severityCounts info).drop (SeverityIndexes minLevel.toLower), v = 0 := by
  unfold checkVulnerabilitiesLevel
  rw [Bool.eq_false_iff]
  simp [List.any_eq_true, Nat.pos_iff_ne_zero]

/-- C5: for every subscriber with a configured minimum severity level
whose freshness gate passes, the subscriber is skipped at the
minimum-severity gate exactly when every finding count at or above
the rank of the configured level is zero; the comparison of the level
name is case-insensitive, and the ranks follow the fixed order
Negligible < Low < Medium < High < Critical. -/
theorem min_severity_gate (rego : List String → String → Bool × Bool)
    (f : String → String → Bool) (store : StoreFn) (svc : ScanService)
    (input owners name : String) (plugin : Plugin)
    (hmin : (plugin.settings.getD GetDefaultSettings).PolicyMinVulnerability.isEmpty = false)
    (hfresh : (!svc.isNew && !(plugin.settings.getD GetDefaultSettings).PolicyShowAll) = false) :
    ((handleSubscriber rego f store svc input owners name plugin).skipped =
        some Gate.minVuln ↔
      ∀ v ∈ (severityCounts svc.scanInfo).drop
        (SeverityIndexes (plugin.settings.getD GetDefaultSettings).PolicyMinVulnerability.toLower),
        v = 0)
    ∧ (∀ l : String,
        l.toLower = (plugin.settings.getD GetDefaultSettings).PolicyMinVulnerability.toLower →
        checkVulnerabilitiesLevel svc.scanInfo l =
          checkVulnerabilitiesLevel svc.scanInfo
            (plugin.settings.getD GetDefaultSettings).PolicyMinVulnerability)
    ∧ SeverityIndexes "negligible" = 0 ∧ SeverityIndexes "low" = 1
    ∧ SeverityIndexes "medium" = 2 ∧ SeverityIndexes "high" = 3
    ∧ SeverityIndexes "critical" = 4 := by
  refine ⟨?_, ?_, by decide, by decide, by decide, by decide, by decide⟩
  · rw [handleSubscriber_skipped]
    rw [← checkVulnerabilitiesLevel_eq_false_iff]
    cases hchk : checkVulnerabilitiesLevel svc.scanInfo
        (plugin.settings.getD GetDefaultSettings).PolicyMinVulnerability with
    | false =>
      unfold firstFailingGate
      simp [hfresh, hmin, hchk]
    | true =>
      unfold firstFailingGate
      simp only [hfresh, hmin, hchk, Bool.not_false, Bool.not_true, Bool.and_false,
        Bool.true_and, Bool.false_and, if_false, Bool.false_eq_true]
      constructor
      · intro hgate
        exfalso
        split_ifs at hgate <;> simp_all
      · intro hgate
        exact absurd hgate (by simp)
  · intro l hl
    unfold checkVulnerabilitiesLevel
    rw [hl]

/-- Witness: the minimum-severity theorem applied to a concrete scan
whose only nonzero counts are below the configured Medium minimum. -/
theorem min_severity_gate_witness :
    (demoPluginMin.settings.getD GetDefaultSettings).PolicyMinVulnerability.isEmpty = false ∧
    (!demoSvcLowOnly.isNew &&
      !(demoPluginMin.settings.getD GetDefaultSettings).PolicyShowAll) = false ∧
    ((handleSubscriber demoRego demoMatch demoStoreQueue demoSvcLowOnly
        "in" "" "demo" demoPluginMin).skipped = some Gate.minVuln ↔
      ∀ v ∈ (severityCounts demoSvcLowOnly.scanInfo).drop
        (SeverityIndexes
          (demoPluginMin.settings.getD GetDefaultSettings).PolicyMinVulnerability.toLower),
        v = 0) :=
  ⟨rfl, rfl, (min_severity_gate demoRego demoMatch demoStoreQueue demoSvcLowOnly
    "in" "" "demo" demoPluginMin rfl rfl).1⟩

/-- When the store answers with an empty batch, the helper returns an
empty queue, whether or not the store reported an error. -/
lemma aggregate_fst_of_batch_empty (store : StoreFn) (name : String)
    (content : Content) (counts : Int) (b : Bool)
    (h : (store name content counts b).1 = []) :
    (AggregateScanAndGetQueue store name content counts b).1 = [] := by
  simp only [AggregateScanAndGetQueue]
  split_ifs <;> simp [h]

/-- When the store answers with a non-empty batch, the helper returns
that batch unchanged, whether or not the store reported an error. -/
lemma aggregate_fst_of_batch_nonempty (store : StoreFn) (name : String)
    (content : Content) (counts : Int) (b : Bool)
    (h : (store name content counts b).1 ≠ []) :
    (AggregateScanAndGetQueue store name content counts b).1 =
      (store name content counts b).1 := by
  simp only [AggregateScanAndGetQueue]
  have hne : (store name content counts b).1.isEmpty = false := by
    simpa [List.isEmpty_iff] using h
  split_ifs with h1 h2 <;> simp_all

/-- The helper records exactly the call it made. -/
lemma aggregate_snd (store : StoreFn) (name : String) (content : Content)
    (counts : Int) (b : Bool) :
    (AggregateScanAndGetQueue store name content counts b).2 =
      { pluginName := name, content := content, counts := counts, ignoreLength := b } :=
  rfl

/-- C1: for every subscriber whose count threshold is positive and
whose gates all pass, the prepared content is handed to the store
with that threshold; when the store answers with a non-empty batch,
exactly one dispatch occurs on this call and its content is the
merged rendering of that batch; when the store answers with an empty
batch, no dispatch occurs on this call.  The merge contract of the
spec (non-empty input gives non-empty output) is a hypothesis. -/
theorem count_aggregation (rego : List String → String → Bool × Bool)
    (f : String → String → Bool) (store : StoreFn) (svc : ScanService)
    (input owners name : String) (plugin : Plugin) (s : Settings) (c : Content)
    (hs : s = plugin.settings.getD GetDefaultSettings)
    (hc : c = preparedContent svc plugin.render (serverOf plugin) input owners)
    (hgate : firstFailingGate rego f svc input s = none)
    (hcount : 0 < s.AggregateIssuesNumber)
    (hmerge : ∀ q : List Content, q ≠ [] → plugin.merge q ≠ []) :
    ({ pluginName := name, content := c, counts := s.AggregateIssuesNumber,
        ignoreLength := false } : StoreCall) ∈
      (handleSubscriber rego f store svc input owners name plugin).storeCalls
    ∧ ((store name c s.AggregateIssuesNumber false).1 ≠ [] →
        (handleSubscriber rego f store svc input owners name plugin).dispatched =
          [plugin.merge (store name c s.AggregateIssuesNumber false).1])
    ∧ ((store name c s.AggregateIssuesNumber false).1 = [] →
        (handleSubscriber rego f store svc input owners name plugin).dispatched = []) := by
  subst hs hc
  unfold handleSubscriber
  simp only [hgate, if_pos hcount, aggregate_snd]
  cases hb : (store name
      (preparedContent svc plugin.render (serverOf plugin) input owners)
      (plugin.settings.getD GetDefaultSettings).AggregateIssuesNumber false).1 with
  | nil =>
    rw [aggregate_fst_of_batch_empty _ _ _ _ _ hb]
    refine ⟨?_, fun hne => absurd rfl hne, fun _ => ?_⟩
    · split_ifs <;> simp_all
    · split_ifs <;> simp_all
  | cons x xs =>
    rw [aggregate_fst_of_batch_nonempty _ _ _ _ _ (by rw [hb]; simp), hb]
    have hm2 : (plugin.merge (x :: xs)).isEmpty = false := by
      simpa [List.isEmpty_iff] using hmerge (x :: xs) (by simp)
    refine ⟨?_, fun _ => ?_, fun hemp => by simp at hemp⟩
    · split_ifs <;> simp_all
    · split_ifs <;> simp_all

/-- Witness: the count-aggregation theorem applied to a concrete
subscriber with threshold three and a store that answers a ready
batch. -/
theorem count_aggregation_witness :
    firstFailingGate demoRego demoMatch demoSvcNew "in"
      (demoPluginCount.settings.getD GetDefaultSettings) = none ∧
    (0 : Int) < (demoPluginCount.settings.getD GetDefaultSettings).AggregateIssuesNumber ∧
    (({ pluginName := "demo",
        content := preparedContent demoSvcNew demoPluginCount.render
          (serverOf demoPluginCount) "in" "alpha;beta",
        counts := (demoPluginCount.settings.getD GetDefaultSettings).AggregateIssuesNumber,
        ignoreLength := false } : StoreCall) ∈
      (handleSubscriber demoRego demoMatch demoStoreReady demoSvcNew
        "in" "alpha;beta" "demo" demoPluginCount).storeCalls) :=
  ⟨by decide, by decide,
    (count_aggregation demoRego demoMatch demoStoreReady demoSvcNew
      "in" "alpha;beta" "demo" demoPluginCount _ _ rfl rfl (by decide) (by decide)
      (fun q hq => by simp [demoPluginCount, demoMerge])).1⟩

/-- A drain request appends nothing, so the helper passes the store
answer through, whether or not the store reported an error. -/
lemma aggregate_fst_of_nil_content (store : StoreFn) (name : String)
    (counts : Int) (b : Bool) :
    (AggregateScanAndGetQueue store name [] counts b).1 =
      (store name [] counts b).1 := by
  simp only [AggregateScanAndGetQueue]
  split_ifs <;> simp_all

/-- C2: for every subscriber with a positive flush interval whose
gates all pass and whose count-based step is disabled, the prepared
content is appended to the bucket with threshold 0 and the
ignore-length directive, and the synchronous dispatch for that call
is suppressed; one iteration of the periodic flush dispatches the
merged drained queue exactly when that queue is non-empty and is a
no-op when it is empty. -/
theorem time_aggregation (rego : List String → String → Bool × Bool)
    (f : String → String → Bool) (store : StoreFn) (svc : ScanService)
    (input owners name : String) (plugin : Plugin) (s : Settings) (c : Content)
    (hs : s = plugin.settings.getD GetDefaultSettings)
    (hc : c = preparedContent svc plugin.render (serverOf plugin) input owners)
    (hgate : firstFailingGate rego f svc input s = none)
    (htime : 0 < s.AggregateTimeoutSeconds)
    (hcount : ¬ 0 < s.AggregateIssuesNumber) :
    ((handleSubscriber rego f store svc input owners name plugin).storeCalls =
      [{ pluginName := name, content := c, counts := 0, ignoreLength := true }])
    ∧ (handleSubscriber rego f store svc input owners name plugin).dispatched = []
    ∧ ((schedulerFlushStep store name plugin.merge).2 =
        if (store name [] 0 false).1 = [] then none
        else some (plugin.merge (store name [] 0 false).1)) := by
  subst hs hc
  refine ⟨?_, ?_, ?_⟩
  · unfold handleSubscriber
    simp only [hgate, if_neg hcount, if_pos htime, aggregate_snd]
    split_ifs <;> simp_all
  · unfold handleSubscriber
    simp only [hgate, if_neg hcount, if_pos htime, aggregate_snd]
    split_ifs <;> simp_all
  · simp only [schedulerFlushStep, aggregate_fst_of_nil_content]
    cases hq : (store name [] 0 false).1 <;> simp [hq]

/-- Witness: the time-aggregation theorem applied to a concrete
subscriber with a five-second interval and a queueing store. -/
theorem time_aggregation_witness :
    firstFailingGate demoRego demoMatch demoSvcNew "in"
      (demoPluginTime.settings.getD GetDefaultSettings) = none ∧
    (0 : Int) < (demoPluginTime.settings.getD GetDefaultSettings).AggregateTimeoutSeconds ∧
    ((handleSubscriber demoRego demoMatch demoStoreQueue demoSvcNew
        "in" "alpha;beta" "demo" demoPluginTime).storeCalls =
      [{ pluginName := "demo",
         content := preparedContent demoSvcNew demoPluginTime.render
           (serverOf demoPluginTime) "in" "alpha;beta",
         counts := 0, ignoreLength := true }]) ∧
    (handleSubscriber demoRego demoMatch demoStoreQueue demoSvcNew
      "in" "alpha;beta" "demo" demoPluginTime).dispatched = [] :=
  have h := time_aggregation demoRego demoMatch demoStoreQueue demoSvcNew
    "in" "alpha;beta" "demo" demoPluginTime _ _ rfl rfl (by decide) (by decide)
    (by decide)
  ⟨by decide, by decide, h.1, h.2.1⟩

/-- C3: the scheduler-start guard of handling.go lines 119-133 is a
read-then-write on the shared IsScheduleRun flag, so the interleaving
in which both of two concurrent calls read the flag before either
sets it starts the scheduler task twice, violating the at-most-once
requirement; an atomic check-and-set guard starts it at most once
under every interleaving. -/
theorem scheduler_guard_race :
    (runReadThenWrite [false, true, false, true]).startedTasks = 2 ∧
    ∀ sched : List Bool, (runCheckAndSet sched).startedTasks ≤ 1 := by
  refine ⟨by decide, ?_⟩
  have hstep : ∀ s t, guardInv s → guardInv (stepCheckAndSet s t) := by
    intro s t hinv
    unfold stepCheckAndSet guardInv at *
    split_ifs <;> simp_all
  have hrun : ∀ (sched : List Bool) s, guardInv s →
      guardInv (sched.foldl stepCheckAndSet s) := by
    intro sched
    induction sched with
    | nil => intro s h; exact h
    | cons t ts ih => intro s h; exact ih _ (hstep s t h)
  intro sched
  exact (hrun sched guardInit (by simp [guardInv, guardInit])).2

/-- Counterexample to C6: a store that reports an error while also
returning a non-empty batch makes the helper return that non-empty
queue, and the processing call then dispatches, contradicting the
claim that an error always yields an empty queue and no dispatch. -/
theorem store_error_cex :
    (demoStoreErr "demo" (preparedContent demoSvcNew demoPluginCount.render
        (serverOf demoPluginCount) "in" "alpha;beta") 3 false).2 = true ∧
    (AggregateScanAndGetQueue demoStoreErr "demo"
      (preparedContent demoSvcNew demoPluginCount.render
        (serverOf demoPluginCount) "in" "alpha;beta") 3 false).1 ≠ [] ∧
    (handleSubscriber demoRego demoMatch demoStoreErr demoSvcNew
      "in" "alpha;beta" "demo" demoPluginCount).dispatched ≠ [] := by
  decide

/-- C6 amended: when the store's accept operation returns an error,
the core logs and returns the store's batch unchanged, so dispatch is
suppressed for that subscriber exactly when that batch is empty, as
it is under the Go convention of a nil slice beside an error; in
particular an erroring store with an empty batch yields no dispatch,
and every remaining subscriber entry is still processed. -/
theorem store_error_passthrough (store : StoreFn) (name : String)
    (content : Content) (counts : Int) (b : Bool)
    (herr : (store name content counts b).2 = true) :
    (AggregateScanAndGetQueue store name content counts b).1 =
      (store name content counts b).1
    ∧ (∀ (rego : List String → String → Bool × Bool)
        (f : String → String → Bool) (svc : ScanService)
        (input owners : String) (plugin : Plugin) (s : Settings) (c : Content),
        s = plugin.settings.getD GetDefaultSettings →
        c = preparedContent svc plugin.render (serverOf plugin) input owners →
        firstFailingGate rego f svc input s = none →
        0 < s.AggregateIssuesNumber →
        (store name c s.AggregateIssuesNumber false).1 = [] →
        (handleSubscriber rego f store svc input owners name plugin).dispatched = [])
    ∧ (∀ (rego : List String → String → Bool × Bool)
        (f : String → String → Bool) (svc : ScanService) (input owners : String)
        (entries : List (String × Option Plugin)),
        (handleEntries rego f store svc input owners entries).length =
          entries.length) := by
  refine ⟨?_, ?_, ?_⟩
  · simp only [AggregateScanAndGetQueue]
    rw [if_pos herr]
  · intro rego f svc input owners plugin s c hs hc hgate hcount hb
    subst hs hc
    unfold handleSubscriber
    simp only [hgate, if_pos hcount, aggregate_snd]
    rw [aggregate_fst_of_batch_empty _ _ _ _ _ hb]
    split_ifs <;> simp_all
  · intro rego f svc input owners entries
    unfold handleEntries
    simp

/-- Witness: the error-passthrough theorem applied to a concrete
erroring store. -/
theorem store_error_passthrough_witness :
    (demoStoreErr "demo" [("k", "v")] 3 false).2 = true ∧
    (AggregateScanAndGetQueue demoStoreErr "demo" [("k", "v")] 3 false).1 =
      (demoStoreErr "demo" [("k", "v")] 3 false).1 :=
  ⟨rfl, (store_error_passthrough demoStoreErr "demo" [("k", "v")] 3 false rfl).1⟩

/-- Counterexample to C7: the unconditional drain requested by the
scheduler flush appends nothing but passes ignoreLength false, not
true as the claim states. -/
theorem drain_ignore_length_cex :
    (schedulerFlushStep demoStoreQueue "demo" demoMerge).1.content = [] ∧
    (schedulerFlushStep demoStoreQueue "demo" demoMerge).1.counts = 0 ∧
    ¬ (schedulerFlushStep demoStoreQueue "demo" demoMerge).1.ignoreLength = true := by
  decide

/-- C7 amended: every unconditional drain the scheduler requests from
the store is made with nil content, threshold 0 and ignoreLength
false; with nil content the helper passes the store answer through
unchanged, so a zero threshold drains whatever is present, even a
single item. -/
theorem drain_request_shape (store : StoreFn) (name : String)
    (merge : List Content → Content) :
    (schedulerFlushStep store name merge).1 =
      { pluginName := name, content := [], counts := 0, ignoreLength := false }
    ∧ (AggregateScanAndGetQueue store name [] 0 false).1 =
      (store name [] 0 false).1 :=
  ⟨rfl, aggregate_fst_of_nil_content store name 0 false⟩

/-- Counterexample to C8: a scan carrying exactly one owning-team
identifier, the empty string, is dispatched without any owners field,
although the claim requires an owners field exactly when at least one
owning-team identifier is present. -/
theorem owners_field_cex :
    demoSvcEmptyOwner.scanInfo.ApplicationScopeOwners.length = 1 ∧
    (handleSubscriber demoRego demoMatch demoStoreQueue demoSvcEmptyOwner
      "in" (ownersString demoSvcEmptyOwner.scanInfo) "demo" demoPluginPlain).dispatched.length = 1 ∧
    getKey ((handleSubscriber demoRego demoMatch demoStoreQueue demoSvcEmptyOwner
      "in" (ownersString demoSvcEmptyOwner.scanInfo) "demo" demoPluginPlain).dispatched.headD [])
      "owners" = none := by
  decide

/-- C8 amended: for every scan and subscriber the built content has
the title of the form image followed by " vulnerability scan report",
the canonical url obtained by concatenating the registry, a slash and
the image with every slash escaped as %2F, the description produced by
the renderer from the scan, the previous scan and the server-prefixed
url, the original raw input under src, and an owners field equal to
the semicolon-join of the owning-team identifiers exactly when that
join is a non-empty string. -/
theorem content_builder_fields (svc : ScanService)
    (render : ScanImageInfo → Option ScanImageInfo → String → String)
    (server input : String) :
    getKey (preparedContent svc render server input (ownersString svc.scanInfo)) "title" =
      some (svc.scanInfo.Image ++ " vulnerability scan report")
    ∧ getKey (preparedContent svc render server input (ownersString svc.scanInfo)) "url" =
      some (svc.scanInfo.Registry ++ "/" ++ svc.scanInfo.Image.replace "/" "%2F")
    ∧ getKey (preparedContent svc render server input (ownersString svc.scanInfo)) "src" =
      some input
    ∧ getKey (preparedContent svc render server input (ownersString svc.scanInfo)) "description" =
      some (render svc.scanInfo svc.prevScan
        (server ++ (svc.scanInfo.Registry ++ "/" ++ svc.scanInfo.Image.replace "/" "%2F")))
    ∧ getKey (preparedContent svc render server input (ownersString svc.scanInfo)) "owners" =
      (if String.intercalate ";" svc.scanInfo.ApplicationScopeOwners = "" then none
       else some (String.intercalate ";" svc.scanInfo.ApplicationScopeOwners)) := by
  have howners : ownersString svc.scanInfo = "" ∨
      (ownersString svc.scanInfo = String.intercalate ";" svc.scanInfo.ApplicationScopeOwners ∧
        String.intercalate ";" svc.scanInfo.ApplicationScopeOwners ≠ "") := by
    unfold ownersString
    cases hl : svc.scanInfo.ApplicationScopeOwners with
    | nil => left; simp
    | cons x xs =>
      by_cases hj : String.intercalate ";" (x :: xs) = ""
      · left; simp [hj]
      · right; exact ⟨by simp, hj⟩
  rcases howners with h | ⟨h1, h2⟩
  · have hj : String.intercalate ";" svc.scanInfo.ApplicationScopeOwners = "" := by
      unfold ownersString at h
      by_cases hl : 0 < svc.scanInfo.ApplicationScopeOwners.length
      · rwa [if_pos hl] at h
      · have : svc.scanInfo.ApplicationScopeOwners = [] := by
          cases hc : svc.scanInfo.ApplicationScopeOwners with
          | nil => rfl
          | cons x xs => exact absurd (by simp [hc]) hl
        rw [this]
        decide
    rw [h, hj]
    unfold preparedContent getContent buildMapContent setKey getKey
    simp
  · rw [h1, if_neg h2]
    unfold preparedContent getContent buildMapContent setKey getKey
    simp [h2]

/-- C9: whenever init succeeds and the scan is a repeat, the
previous-scan state was never parsed and remains nil, so the renderer
receives no previous scan for repeat scans, including repeats shown
under PolicyShowAll; and the previous scan is parsed only when the
scan is new and a non-empty prior payload exists. -/
theorem prev_scan_gating (parse : String → Except String ScanImageInfo)
    (handleCurrentInfo : ScanImageInfo → Except String (String × Bool))
    (input : String) (svc : ScanService)
    (hres : initService parse handleCurrentInfo input = Except.ok svc) :
    (svc.isNew = false → svc.prevScan = none ∧
      ∀ (render : ScanImageInfo → Option ScanImageInfo → String → String)
        (server : String),
        getKey (getContent svc render server) "description" =
          some (render svc.scanInfo none
            (server ++ (svc.scanInfo.Registry ++ "/" ++
              svc.scanInfo.Image.replace "/" "%2F"))))
    ∧ (∀ p : ScanImageInfo, svc.prevScan = some p → svc.isNew = true ∧
        ∃ src : String, handleCurrentInfo svc.scanInfo = Except.ok (src, true) ∧
          0 < src.length ∧ parse src = Except.ok p) := by
  unfold initService at hres
  cases hp : parse input with
  | error e =>
    simp only [hp] at hres
    exact Except.noConfusion hres
  | ok info =>
    simp only [hp] at hres
    cases hc : handleCurrentInfo info with
    | error e =>
      simp only [hc] at hres
      exact Except.noConfusion hres
    | ok pr =>
      simp only [hc] at hres
      obtain ⟨prevSrc, isNew⟩ := pr
      cases isNew with
      | false =>
        simp only [Bool.not_false, if_pos trivial, Except.ok.injEq] at hres
        subst hres
        refine ⟨fun _ => ⟨rfl, fun render server => ?_⟩, fun p hp2 => by simp at hp2⟩
        unfold getContent buildMapContent getKey
        simp
      | true =>
        simp only [Bool.not_true, Bool.false_eq_true, if_false] at hres
        by_cases hlen : 0 < prevSrc.length
        · rw [if_pos hlen] at hres
          cases hp2 : parse prevSrc with
          | error e =>
            simp only [hp2] at hres
            exact Except.noConfusion hres
          | ok prev =>
            simp only [hp2, Except.ok.injEq] at hres
            subst hres
            refine ⟨fun habs => by simp at habs, fun p hpp => ?_⟩
            simp only [Option.some.injEq] at hpp
            subst hpp
            exact ⟨rfl, prevSrc, hc, hlen, hp2⟩
        · rw [if_neg hlen] at hres
          simp only [Except.ok.injEq] at hres
          subst hres
          exact ⟨fun habs => by simp at habs, fun p hpp => by simp at hpp⟩

/-- Witness: the prev-scan theorem applied to a concrete repeat scan
whose lookup reports a stored prior payload; the previous scan is
nevertheless not parsed. -/
theorem prev_scan_gating_witness :
    initService demoParse demoHandleCurrentOld "raw" =
      Except.ok { scanInfo := demoInfo, prevScan := none, isNew := false } ∧
    ({ scanInfo := demoInfo, prevScan := none, isNew := false } : ScanService).prevScan
      = none :=
  ⟨rfl,
    ((prev_scan_gating demoParse demoHandleCurrentOld "raw"
      { scanInfo := demoInfo, prevScan := none, isNew := false } rfl).1 rfl).1⟩

/-- C10: a nil plugin in the input map is skipped with no store call,
no dispatch, no scheduler start and no settings mutation, and a plugin
whose settings lookup returns nil is gated using the default settings
instead of faulting. -/
theorem degenerate_entries (rego : List String → String → Bool × Bool)
    (f : String → String → Bool) (store : StoreFn) (svc : ScanService)
    (input owners name : String) :
    (handleEntry rego f store svc input owners (name, none) =
      { storeCalls := [], dispatched := [], scheduleStarted := false,
        settingsAfter := none, skipped := none })
    ∧ ∀ plugin : Plugin, plugin.settings = none →
        (handleSubscriber rego f store svc input owners name plugin).skipped =
          firstFailingGate rego f svc input GetDefaultSettings := by
  refine ⟨rfl, ?_⟩
  intro plugin hnil
  rw [handleSubscriber_skipped, hnil, Option.getD_none]

/-- Witness: the degenerate-entry theorem applied to a concrete
plugin whose settings lookup answers nil. -/
theorem degenerate_entries_witness :
    demoPluginNilSettings.settings = none ∧
    (handleSubscriber demoRego demoMatch demoStoreQueue demoSvcNew "in" "" "demo"
        demoPluginNilSettings).skipped =
      firstFailingGate demoRego demoMatch demoSvcNew "in" GetDefaultSettings :=
  ⟨rfl, (degenerate_entries demoRego demoMatch demoStoreQueue demoSvcNew
    "in" "" "demo").2 demoPluginNilSettings rfl⟩

end scanservice
